import Mathlib

set_option maxHeartbeats 1600000

/-! Shallow embedding of tsugliani/container-service-extension.

The repository has two source files:
  * `container_service_extension/config.py` — `generate_sample_config`,
    `bool_to_msg` and the validator `check_config`;
  * `container_service_extension/cse.py` — the click command dispatcher with
    the handlers `version`, `sample`, `check`, `install`, `uninstall`, `run`.

External client libraries (pika, pyvcloud, requests, click, vcd_cli) are
modelled as opaque capabilities: every call into them is one step whose
outcome (normal return or raised exception) is supplied by an environment
record, and every observable action (console output, log output, connection
management, the downstream workflow calls) is recorded as an event in a
trace, in the order the source performs them. -/

/-- Python exception values raised by the code under test or by the external
client libraries. `typeError` is the interpreter error for a call-arity
mismatch, `exn` is a library exception carrying a message, and `abort` is the
exception click raises to abort a command (`click.Abort`). -/
inductive PyErr
  | typeError (msg : String)
  | exn (msg : String)
  | abort
deriving DecidableEq

/-- Python `str()` of an exception: the message it carries (cse.py formats
caught exceptions with `%s` at lines 125-126 and 162-163). -/
def pyStr : PyErr → String
  | PyErr.typeError m => m
  | PyErr.exn m => m
  | PyErr.abort => ""

/-- Whether an external call returned normally (`Except.ok`). -/
def okb : Except PyErr Unit → Bool
  | Except.ok _ => true
  | Except.error _ => false

/-- The `amqp` section of the configuration document, with the keys read by
`check_config` (config.py:73-77). -/
structure AmqpConfig where
  host : String
  port : Nat
  user : String
  password : String
deriving DecidableEq

/-- The `vcd` section of the configuration document, with the keys read by
`check_config` (config.py:83-101). -/
structure VcdConfig where
  host : String
  port : Nat
  username : String
  password : String
  api_version : String
  verify : Bool
deriving DecidableEq

/-- The `vcs` section of the configuration document, with the keys read by
`check_config` (config.py:104-113). -/
structure VcsConfig where
  host : String
  port : Nat
  username : String
  password : String
deriving DecidableEq

/-- The configuration document loaded by `yaml.load` in `check_config`
(config.py:70-72), restricted to the keys the validator reads. It is
immutable after load: no probe assigns into it. -/
structure Config where
  amqp : AmqpConfig
  vcd : VcdConfig
  vcs : VcsConfig
deriving DecidableEq

/-- Observable actions of the program, recorded in source order.
`echo` is a line written to standard output (`click.echo` / `click.secho`);
`echoErr` is `click.secho(..., err=True)` (standard error);
`logError` is `LOGGER.error(...)`, whose sink is the file `cse.log` set by
`logging.basicConfig(filename='cse.log')` (cse.py:69);
`amqpConnect` is the `pika.BlockingConnection` attempt, `amqpClose` the
`connection.close()` call; `disableWarnings` is the module-level call
`requests.packages.urllib3.disable_warnings()` (config.py:88), which mutates
the process-wide urllib3 warning state; `vcdClient` is `Client(...)`
construction, `vcdLogin` is `client.set_credentials(...)`; `vcsConnect` is
`VSphere(...).connect()`; `callInstallCse`, `callUninstallCse`, `serviceRun`
are the downstream workflow calls; `prompt` is a click confirmation prompt. -/
inductive Event
  | echo (line : String)
  | echoErr (line : String)
  | logError (text : String)
  | amqpConnect (host : String) (port : Nat)
  | amqpClose
  | disableWarnings
  | vcdClient (host : String)
  | vcdLogin (username : String)
  | vcsConnect (host : String) (port : Nat)
  | callInstallCse
  | callUninstallCse
  | serviceRun
  | prompt (text : String)
deriving DecidableEq

/-- Outcomes of the external calls performed by `check_config`, one field per
call site in config.py, in source order. `amqpIsOpen` is the value of the
`connection.is_open` attribute read at line 81. Console writes are calls into
click and may themselves raise (for instance on a closed output stream), so
each echo has an outcome too. -/
structure CheckEnv where
  amqpConnectR : Except PyErr Unit
  amqpIsOpen : Bool
  amqpEchoR : Except PyErr Unit
  amqpCloseR : Except PyErr Unit
  warnEchoR : Except PyErr Unit
  vcdClientR : Except PyErr Unit
  vcdLoginR : Except PyErr Unit
  vcdEchoR : Except PyErr Unit
  vcsConnectR : Except PyErr Unit
  vcsEchoR : Except PyErr Unit

/-- `bool_to_msg` (config.py:62-66). -/
def bool_to_msg (value : Bool) : String :=
  if value then "success" else "fail"

/-- The status line printed by the message-queue probe (config.py:79-81):
`'Connection to AMQP server (%s:%s): %s' % (host, port, bool_to_msg(is_open))`. -/
def amqpLine (host : String) (port : Nat) (isOpen : Bool) : String :=
  "Connection to AMQP server (" ++ host ++ ":" ++ toString port ++ "): " ++
    bool_to_msg isOpen

/-- The status line printed by the management-API probe (config.py:99-102):
the argument of `bool_to_msg` is the literal `True`. -/
def vcdLine (host : String) (port : Nat) : String :=
  "Connection to vCloud Director as system administrator (" ++ host ++ ":" ++
    toString port ++ "): " ++ bool_to_msg true

/-- The status line printed by the hypervisor probe (config.py:109-114): the
argument of `bool_to_msg` is the literal `True`. -/
def vcsLine (username : String) (host : String) (port : Nat) : String :=
  "Connection to vCenter Server as " ++ username ++ " (" ++ host ++ ":" ++
    toString port ++ "): " ++ bool_to_msg true

/-- The warning printed with `click.secho(..., fg='yellow', err=True)` when
TLS verification is disabled (config.py:84-87). -/
def insecureWarning : String :=
  "InsecureRequestWarning: Unverified HTTPS request is being made. " ++
    "Adding certificate verification is strongly advised."

/-- The message-queue probe (config.py:73-82): build credentials and
connection parameters (pure constructors), attempt `pika.BlockingConnection`,
print the status line with `bool_to_msg(connection.is_open)`, then call
`connection.close()`. Any raising step propagates immediately; note that
`close()` is on the line after the echo, so it is only reached if the echo
returned normally. -/
def amqpProbe (config : Config) (env : CheckEnv) : List Event × Except PyErr Unit :=
  match env.amqpConnectR with
  | Except.error e => ([Event.amqpConnect config.amqp.host config.amqp.port], Except.error e)
  | Except.ok _ =>
    match env.amqpEchoR with
    | Except.error e => ([Event.amqpConnect config.amqp.host config.amqp.port], Except.error e)
    | Except.ok _ =>
      match env.amqpCloseR with
      | Except.error e =>
          ([Event.amqpConnect config.amqp.host config.amqp.port,
            Event.echo (amqpLine config.amqp.host config.amqp.port env.amqpIsOpen),
            Event.amqpClose], Except.error e)
      | Except.ok _ =>
          ([Event.amqpConnect config.amqp.host config.amqp.port,
            Event.echo (amqpLine config.amqp.host config.amqp.port env.amqpIsOpen),
            Event.amqpClose], Except.ok ())

/-- The client-construction, login and reporting steps of the management-API
probe (config.py:89-102), appended after the events `pre` of the preceding
warning block. -/
def vcdClientPart (config : Config) (env : CheckEnv) (pre : List Event) :
    List Event × Except PyErr Unit :=
  match env.vcdClientR with
  | Except.error e => (pre ++ [Event.vcdClient config.vcd.host], Except.error e)
  | Except.ok _ =>
    match env.vcdLoginR with
    | Except.error e =>
        (pre ++ [Event.vcdClient config.vcd.host,
                 Event.vcdLogin config.vcd.username], Except.error e)
    | Except.ok _ =>
      match env.vcdEchoR with
      | Except.error e =>
          (pre ++ [Event.vcdClient config.vcd.host,
                   Event.vcdLogin config.vcd.username], Except.error e)
      | Except.ok _ =>
          (pre ++ [Event.vcdClient config.vcd.host,
                   Event.vcdLogin config.vcd.username,
                   Event.echo (vcdLine config.vcd.host config.vcd.port)], Except.ok ())

/-- The management-API probe (config.py:83-102): when `config['vcd']['verify']`
is falsey, first `click.secho` the insecure-request warning to standard error
and call `requests.packages.urllib3.disable_warnings()` — a module-level call
made before the `Client` object exists — then construct the client, log in and
print the status line. -/
def vcdProbe (config : Config) (env : CheckEnv) : List Event × Except PyErr Unit :=
  if config.vcd.verify then
    vcdClientPart config env []
  else
    match env.warnEchoR with
    | Except.error e => ([], Except.error e)
    | Except.ok _ =>
        vcdClientPart config env [Event.echoErr insecureWarning, Event.disableWarnings]

/-- The hypervisor probe (config.py:104-114): construct a `VSphere` object
(pure constructor), call `v.connect()`, print the status line. -/
def vcsProbe (config : Config) (env : CheckEnv) : List Event × Except PyErr Unit :=
  match env.vcsConnectR with
  | Except.error e => ([Event.vcsConnect config.vcs.host config.vcs.port], Except.error e)
  | Except.ok _ =>
    match env.vcsEchoR with
    | Except.error e => ([Event.vcsConnect config.vcs.host config.vcs.port], Except.error e)
    | Except.ok _ =>
        ([Event.vcsConnect config.vcs.host config.vcs.port,
          Event.echo (vcsLine config.vcs.username config.vcs.host config.vcs.port)],
         Except.ok ())

/-- `check_config(file_name)` (config.py:69-115). `fileR` is the combined
outcome of `open(file_name)` plus `yaml.load` plus the section lookups: either
the loaded document or a raised exception. The three probes then run in source
order — message queue, management API, hypervisor — each raising step
propagating immediately, and on full success the function returns the loaded
document unchanged (config.py:115). -/
def check_config (fileR : Except PyErr Config) (env : CheckEnv) :
    List Event × Except PyErr Config :=
  match fileR with
  | Except.error e => ([], Except.error e)
  | Except.ok config =>
    match amqpProbe config env with
    | (t1, Except.error e) => (t1, Except.error e)
    | (t1, Except.ok _) =>
      match vcdProbe config env with
      | (t2, Except.error e) => (t1 ++ t2, Except.error e)
      | (t2, Except.ok _) =>
        match vcsProbe config env with
        | (t3, Except.error e) => (t1 ++ t2 ++ t3, Except.error e)
        | (t3, Except.ok _) => (t1 ++ t2 ++ t3, Except.ok config)

/-- The environment in which every external call returns normally, keeping the
reported `is_open` value. -/
def allOk (env : CheckEnv) : CheckEnv :=
  { env with
    amqpConnectR := Except.ok (), amqpEchoR := Except.ok (),
    amqpCloseR := Except.ok (), warnEchoR := Except.ok (),
    vcdClientR := Except.ok (), vcdLoginR := Except.ok (),
    vcdEchoR := Except.ok (), vcsConnectR := Except.ok (),
    vcsEchoR := Except.ok () }

/-- The three connectivity probes of the validator. -/
inductive ProbeId
  | amqp
  | vcd
  | vcs
deriving DecidableEq

/-- Which probe an event marks the start of: the queue-connection attempt, the
management-API client construction, or the hypervisor connect. -/
def probeOf : Event → Option ProbeId
  | Event.amqpConnect _ _ => some ProbeId.amqp
  | Event.vcdClient _ => some ProbeId.vcd
  | Event.vcsConnect _ _ => some ProbeId.vcs
  | _ => none

/-- The sequence of probes attempted along a trace, in order. -/
def probeSeq (tr : List Event) : List ProbeId :=
  tr.filterMap probeOf

/-- `IsInitSeg s t` holds when `s` is an initial segment of `t`: the list `t`
extends `s` without changing anything already there. -/
def IsInitSeg {α : Type} : List α → List α → Prop
  | [], _ => True
  | _ :: _, [] => False
  | a :: s, b :: t => a = b ∧ IsInitSeg s t

/-- The message-queue probe ran to completion without raising: connection,
status echo and close all returned normally. -/
def amqpStageOk (env : CheckEnv) : Bool :=
  okb env.amqpConnectR && okb env.amqpEchoR && okb env.amqpCloseR

/-- The warning block before the management-API client either was skipped
(`verify` truthy) or its secho returned normally. -/
def warnStageOk (config : Config) (env : CheckEnv) : Bool :=
  config.vcd.verify || okb env.warnEchoR

/-- The management-API probe ran to completion without raising. -/
def vcdStageOk (config : Config) (env : CheckEnv) : Bool :=
  warnStageOk config env && okb env.vcdClientR && okb env.vcdLoginR && okb env.vcdEchoR

/-- The hypervisor probe ran to completion without raising. -/
def vcsStageOk (env : CheckEnv) : Bool :=
  okb env.vcsConnectR && okb env.vcsEchoR

/-- Number of `disable_warnings` calls recorded in a trace. -/
def disableWarningsCount : List Event → Nat
  | [] => 0
  | Event.disableWarnings :: tr => disableWarningsCount tr + 1
  | _ :: tr => disableWarningsCount tr

/-- Whether a trace contains a `disable_warnings` call. -/
def mentionsDW : List Event → Bool
  | [] => false
  | Event.disableWarnings :: _ => true
  | _ :: tr => mentionsDW tr

/-- Process-wide interpreter state touched by the validator:
`requests.packages.urllib3.disable_warnings()` mutates the urllib3 warning
filter of the whole process, and nothing in the code re-enables it. -/
structure ProcState where
  warningsDisabled : Bool
deriving DecidableEq

/-- Effect of one event on the process-wide state: `disable_warnings` sets the
flag, no event clears it, and all other events leave the state unchanged. -/
def applyEvent (s : ProcState) (e : Event) : ProcState :=
  match e with
  | Event.disableWarnings => { s with warningsDisabled := true }
  | _ => s

/-- Process-wide state after a trace has run from state `s`. -/
def runEvents (s : ProcState) (tr : List Event) : ProcState :=
  tr.foldl applyEvent s

/-- `pat` occurs at the head of `s`. -/
def isSubListAt : List Char → List Char → Bool
  | [], _ => true
  | _ :: _, [] => false
  | a :: pat, b :: s => a == b && isSubListAt pat s

/-- `pat` occurs somewhere in `s`. -/
def containsSub (pat : List Char) : List Char → Bool
  | [] => isSubListAt pat []
  | s@(_ :: rest) => isSubListAt pat s || containsSub pat rest

/-- `pat` occurs as a contiguous substring of `s`. -/
def containsSubstr (s pat : String) : Bool :=
  containsSub pat.toList s.toList

/-- The standard-output lines of a trace that contain `pat`. -/
def echoesContaining (tr : List Event) (pat : String) : List Event :=
  tr.filter fun ev =>
    match ev with
    | Event.echo l => containsSubstr l pat
    | _ => false

/-- The lines of the fixed template returned by `generate_sample_config`
(config.py:18-59), after Python substitutes the logging-format string for the
single `%s` placeholder. The final two lines come from the trailing
`\n\n    ` before the closing quotes. -/
def sampleConfigLines : List String :=
  ["amqp:",
   "    host: amqp.vmware.com",
   "    port: 5672",
   "    user: \x27guest\x27",
   "    password: \x27guest\x27",
   "    exchange: vcdext",
   "    routing_key: cse",
   "",
   "vcd:",
   "    host: vcd.vmware.com",
   "    port: 443",
   "    username: \x27administrator\x27",
   "    password: \x27my_secret_password\x27",
   "    api_version: \x276.0\x27",
   "    verify: False",
   "    log: True",
   "",
   "vcs:",
   "    host: vcenter.vmware.com",
   "    port: 443",
   "    username: \x27administrator@vsphere.local\x27",
   "    password: \x27my_secret_password\x27",
   "    verify: False",
   "",
   "service:",
   "    listeners: 2",
   "    logging_level: 5",
   "    logging_format: %(levelname) -8s %(asctime)s %(name) -40s %(funcName) -35s %(lineno) -5d: %(message)s",
   "    key_filename: \x27id_rsa_cse\x27",
   "    key_filename_pub: \x27id_rsa_cse.pub\x27",
   "",
   "broker:",
   "    type: default",
   "    catalog: cse-catalog",
   "    master_template: k8s-template.ova",
   "    node_template: k8s-template.ova",
   "    password: \x27template-root-user-password\x27",
   "",
   "    "]

/-- `generate_sample_config` (config.py:18-59): a pure function of no
arguments returning the fixed template text. -/
def generate_sample_config : String :=
  String.intercalate "\n" sampleConfigLines

/-- Leading spaces removed. -/
def dropSpaces : List Char → List Char
  | ' ' :: r => dropSpaces r
  | l => l

/-- The YAML indicator characters (the c-indicator set of the YAML
specification): a plain (unquoted) scalar may not begin with one of these. -/
def yamlIndicatorChars : List Char :=
  ['-', '?', ':', ',', '[', ']', '\x7b', '\x7d', '#', '&', '*', '!', '|', '>',
   '\x27', '\x22', '%', '@', '\x60']

/-- Whether the characters contain a colon that is followed by a space or ends
the text. Inside a plain scalar in block context such a colon is read by YAML
as introducing another mapping value — the condition behind PyYAML's
"mapping values are not allowed here" error. -/
def hasColonBreak : List Char → Bool
  | [] => false
  | [':'] => true
  | ':' :: ' ' :: _ => true
  | _ :: rest => hasColonBreak rest

/-- Modelled from the YAML plain-scalar rules as implemented by PyYAML's
scanner (the `yaml` library called at config.py:72): an unquoted scalar in
block context may not begin with an indicator character — except `-`, `?`,
`:` when immediately followed by a non-space — and may not contain a colon
that is followed by a space or ends the scalar. In particular a value
beginning with `%` cannot start any token for PyYAML. -/
def plainScalarOk (v : List Char) : Bool :=
  match v with
  | [] => true
  | c :: rest =>
    (!(yamlIndicatorChars.contains c) ||
      ((c == '-' || c == '?' || c == ':') && rest.headD ' ' != ' ')) &&
    !(hasColonBreak (c :: rest))

/-- Scan one indented `key: value` line of a block mapping: the key runs to
the first colon, the colon must be followed by a space (or end the line), and
the value is either a single-quoted scalar or a plain scalar checked against
`plainScalarOk`. An error carries the offending line. -/
def scanEntry (l : String) : Except String (String × String) :=
  let t := dropSpaces l.toList
  let key := String.mk (t.takeWhile fun c => c != ':')
  match t.dropWhile fun c => c != ':' with
  | [] => Except.error l
  | _ :: r =>
    match r with
    | [] => Except.ok (key, "")
    | ' ' :: r2 =>
      let v := dropSpaces r2
      match v with
      | [] => Except.ok (key, "")
      | '\x27' :: _ => Except.ok (key, String.mk v)
      | _ =>
        if plainScalarOk v then Except.ok (key, String.mk v)
        else Except.error l
    | _ => Except.error l

/-- A top-level `key:` line: the key, with the colon as the last character. -/
def topKeyOf (cs : List Char) : Option String :=
  match cs.dropWhile fun c => c != ':' with
  | [':'] => some (String.mk (cs.takeWhile fun c => c != ':'))
  | _ => none

/-- Close the currently open section, if any. -/
def flushSection (cur : Option String) (entries : List (String × String))
    (done : List (String × List (String × String))) :
    List (String × List (String × String)) :=
  match cur with
  | none => done
  | some k => done ++ [(k, entries)]

/-- Modelled from PyYAML (the `yaml.load` used at config.py:72), for the
two-level block-mapping shape the sample template uses: walk the lines,
ignoring blank ones; a column-zero `key:` line opens a section; an indented
line must be a `key: value` entry of the open section whose unquoted value
satisfies the plain-scalar rules. The result is the mapping, or the first
line a YAML parse rejects. -/
def scanYamlLines : List String → Option String → List (String × String) →
    List (String × List (String × String)) →
    Except String (List (String × List (String × String)))
  | [], cur, entries, done => Except.ok (flushSection cur entries done)
  | l :: rest, cur, entries, done =>
    let cs := l.toList
    if (dropSpaces cs).isEmpty then
      scanYamlLines rest cur entries done
    else if cs.headD ' ' == ' ' then
      match cur with
      | none => Except.error l
      | some _ =>
        match scanEntry l with
        | Except.error e => Except.error e
        | Except.ok kv => scanYamlLines rest cur (entries ++ [kv]) done
    else
      match topKeyOf cs with
      | none => Except.error l
      | some k => scanYamlLines rest (some k) [] (flushSection cur entries done)

/-- Read a YAML document given as lines: either its two-level mapping or the
first line a YAML parse rejects. -/
def yamlScan (lines : List String) :
    Except String (List (String × List (String × String))) :=
  scanYamlLines lines none [] []

/-- The scalar at `sec.key` of a scanned document. -/
def yamlValue (doc : List (String × List (String × String))) (sec key : String) :
    Option String :=
  (doc.find? fun p => p.1 == sec).bind fun p =>
    (p.2.find? fun q => q.1 == key).map Prod.snd

/-- The line of the sample template produced by substituting the logging
format string into `logging_format: %s` (config.py:46, 57-58). -/
def loggingFormatLine : String :=
  "    logging_format: %(levelname) -8s %(asctime)s %(name) -40s %(funcName) -35s %(lineno) -5d: %(message)s"

/-- The sample lines with the offending line removed, used to localize the
YAML failure to exactly the substituted logging_format line. -/
def sampleLinesWithoutLoggingFormat : List String :=
  sampleConfigLines.filter fun l => !(containsSubstr l "logging_format")

/-- Outcomes of the external calls made by the cse.py command handlers.
`pkgVersionR` is `pkg_resources.require(...)[0].version` (cse.py:77), which
raises when the distribution is absent; `stdoutR` is the `vcd_cli` `stdout`
helper (cse.py:88); `sampleEchoR` is the `click.secho` of the sample template
(cse.py:95) — like every console write it may raise, consistently with the
echo outcomes of `CheckEnv`; `fileR` and `checkEnv` feed `check_config`.

Modelled from the spec: `installCseR`, `uninstallCseR` and `serviceRunR` are
the outcomes of `install_cse`, `uninstall_cse` and `Service(...).run()` —
repository code imported by cse.py (lines 10-12) but not present under the
provided sources; the spec (sections 1, 4.2, 6) describes them as out-of-scope
domain workflows that the handlers merely delegate to, so they are modelled as
opaque fallible operations. -/
structure CliEnv where
  pkgVersionR : Except PyErr String
  stdoutR : Except PyErr Unit
  sampleEchoR : Except PyErr Unit
  installCseR : Except PyErr Unit
  uninstallCseR : Except PyErr Unit
  serviceRunR : Except PyErr Unit
  fileR : Except PyErr Config
  checkEnv : CheckEnv

/-- `traceback.format_exc()` as logged by the `check` and `install` handlers
(cse.py:124, 161): the full multi-line diagnostic detail for the caught
exception. -/
def tracebackOf (e : PyErr) : String :=
  "Traceback (most recent call last):\n" ++ pyStr e

/-- The version line assembled by the `version` handler (cse.py:85-87). -/
def versionLine (ver : String) : String :=
  "cse, Container Service Extension for VMware vCloud Director, version " ++ ver

/-- The `version` handler (cse.py:72-88): resolve the installed package
version, then print the version line via `stdout`. It has no try/except, so a
raising step propagates out of the handler. -/
def versionCmd (env : CliEnv) : List Event × Except PyErr Unit :=
  match env.pkgVersionR with
  | Except.error e => ([], Except.error e)
  | Except.ok ver =>
    match env.stdoutR with
    | Except.error e => ([], Except.error e)
    | Except.ok _ => ([Event.echo (versionLine ver)], Except.ok ())

/-- The `sample` handler (cse.py:91-95): `click.secho(generate_sample_config())`,
with no try/except — when the secho raises, nothing is printed and the
exception propagates out of the handler. -/
def sampleCmd (env : CliEnv) : List Event × Except PyErr Unit :=
  match env.sampleEchoR with
  | Except.ok _ => ([Event.echo generate_sample_config], Except.ok ())
  | Except.error e => ([], Except.error e)

/-- Python positional-call semantics: calling a function whose definition
declares `params` positional parameters with `args` positional arguments
raises `TypeError` before the body runs unless the counts match. -/
def pyPositionalCall (fname : String) (params args : Nat)
    (body : List Event × Except PyErr Unit) : List Event × Except PyErr Unit :=
  if params = args then body
  else
    ([], Except.error (PyErr.typeError
      (fname ++ "() takes " ++ toString params ++
        " positional argument but " ++ toString args ++ " were given")))

/-- Number of parameters in the definition `def check_config(file_name):`
(config.py:69). -/
def check_config_paramCount : Nat := 1

/-- Result of `check_config` coerced to a statement outcome at the call site. -/
def exceptUnit : Except PyErr Config → Except PyErr Unit
  | Except.ok _ => Except.ok ()
  | Except.error e => Except.error e

/-- The one-line failure message printed by the `check` handler
(cse.py:125-126). -/
def checkInvalidLine (e : PyErr) : String :=
  "The configuration is invalid, " ++ pyStr e ++ ". See \x27cse.log\x27 for details"

/-- The `check` handler (cse.py:117-126): inside try/except, evaluate the call
`check_config(config, template)` — two positional arguments against the
one-parameter definition — then print the valid line; on any exception, log
the traceback (to the `cse.log` sink) and print the one-line invalid message. -/
def checkCmd (cfgPath template : String) (env : CliEnv) :
    List Event × Except PyErr Unit :=
  match pyPositionalCall "check_config" check_config_paramCount 2
      (let r := check_config env.fileR env.checkEnv
       (r.1, exceptUnit r.2)) with
  | (tr, Except.ok _) => (tr ++ [Event.echo "The configuration is valid."], Except.ok ())
  | (tr, Except.error e) =>
      (tr ++ [Event.logError (tracebackOf e), Event.echo (checkInvalidLine e)],
       Except.ok ())

/-- The one-line failure message printed by the `install` handler
(cse.py:162-163), with the source's spelling. -/
def installErrLine (e : PyErr) : String :=
  "An error has ocurred, " ++ pyStr e ++ ". See \x27cse.log\x27 for details"

/-- The `install` handler (cse.py:129-163): inside try/except, delegate to
`install_cse`; on any exception, log the traceback and print the one-line
message. -/
def installCmd (env : CliEnv) : List Event × Except PyErr Unit :=
  match env.installCseR with
  | Except.ok _ => ([Event.callInstallCse], Except.ok ())
  | Except.error e =>
      ([Event.callInstallCse, Event.logError (tracebackOf e),
        Event.echo (installErrLine e)], Except.ok ())

/-- The `uninstall` handler body (cse.py:192-194): delegate to
`uninstall_cse` with no try/except, so its exceptions propagate out of the
handler uncontained. -/
def uninstallCmd (env : CliEnv) : List Event × Except PyErr Unit :=
  match env.uninstallCseR with
  | Except.ok _ => ([Event.callUninstallCse], Except.ok ())
  | Except.error e => ([Event.callUninstallCse], Except.error e)

/-- The confirmation prompt declared on the `-y` (`--yes`) option (cse.py:191). -/
def uninstallPromptText : String :=
  "Are you sure you want to uninstall CSE?"

/-- Invocation of the `uninstall` subcommand through click (cse.py:185-194):
per click's documented option semantics, a flag with `prompt=...` skips the
prompt when passed on the command line; otherwise click prompts and hands the
answer to the callback `abort_if_false` (from vcd_cli), which aborts the
command — before the handler body, hence before any `uninstall_cse` call —
when the answer is false. -/
def uninstallInvoke (yesFlag : Bool) (answer : Bool) (env : CliEnv) :
    List Event × Except PyErr Unit :=
  if yesFlag then
    uninstallCmd env
  else if answer then
    (Event.prompt uninstallPromptText :: (uninstallCmd env).1, (uninstallCmd env).2)
  else
    ([Event.prompt uninstallPromptText], Except.error PyErr.abort)

/-- The `run` handler (cse.py:197-218): construct the `Service` and call
`service.run()`, with no try/except, so exceptions propagate out of the
handler uncontained. `skipCheck` mirrors the `-s` (`--skip-check`) flag that is
passed into the service as `should_check_config=not skip_check`. -/
def runServiceCmd (skipCheck : Bool) (env : CliEnv) :
    List Event × Except PyErr Unit :=
  match env.serviceRunR with
  | Except.ok _ => ([Event.serviceRun], Except.ok ())
  | Except.error e => ([Event.serviceRun], Except.error e)

/-- The four subcommands of cse.py that take a config path. -/
inductive CseCommand
  | check
  | install
  | uninstall
  | run
deriving DecidableEq

/-- The declaration of a `-c` (`--config`) click option: the environment variable
it falls back to and the default file name. -/
structure PathOption where
  envvar : String
  defaultPath : String
deriving DecidableEq

/-- The `-c` (`--config`) option declared by each subcommand: all four declare
`envvar='CSE_CONFIG', default='config.yaml'` (cse.py:100-108, 131-139,
168-176, 199-207). -/
def configPathOption : CseCommand → PathOption
  | CseCommand.check => ⟨"CSE_CONFIG", "config.yaml"⟩
  | CseCommand.install => ⟨"CSE_CONFIG", "config.yaml"⟩
  | CseCommand.uninstall => ⟨"CSE_CONFIG", "config.yaml"⟩
  | CseCommand.run => ⟨"CSE_CONFIG", "config.yaml"⟩

/-- Resolution of the config path per click's documented option semantics: an
explicit flag value wins; otherwise the option's environment variable, when
set in the process environment `environ`; otherwise the declared default. -/
def resolveConfigPath (opt : PathOption) (flagValue : Option String)
    (environ : String → Option String) : String :=
  match flagValue with
  | some a => a
  | none =>
    match environ opt.envvar with
    | some b => b
    | none => opt.defaultPath

/-- The configuration document described by the sample template: the values of
`generate_sample_config` parsed into the validator's read-model. -/
def sampleCfg : Config :=
  { amqp := { host := "amqp.vmware.com", port := 5672,
              user := "guest", password := "guest" },
    vcd := { host := "vcd.vmware.com", port := 443,
             username := "administrator", password := "my_secret_password",
             api_version := "6.0", verify := false },
    vcs := { host := "vcenter.vmware.com", port := 443,
             username := "administrator@vsphere.local",
             password := "my_secret_password" } }

/-- The sample document with TLS verification turned on. -/
def cfgVerify : Config :=
  { sampleCfg with vcd := { sampleCfg.vcd with verify := true } }

/-- Validator environment in which every external call returns normally and
the queue connection reports open. -/
def envAllOk : CheckEnv :=
  { amqpConnectR := Except.ok (), amqpIsOpen := true,
    amqpEchoR := Except.ok (), amqpCloseR := Except.ok (),
    warnEchoR := Except.ok (), vcdClientR := Except.ok (),
    vcdLoginR := Except.ok (), vcdEchoR := Except.ok (),
    vcsConnectR := Except.ok (), vcsEchoR := Except.ok () }

/-- Environment in which the queue connection succeeds but printing its status
line raises (for instance, standard output closed mid-run). -/
def envEchoFail : CheckEnv :=
  { envAllOk with amqpEchoR := Except.error (PyErr.exn "broken pipe") }

/-- Environment in which the `pika.BlockingConnection` attempt raises. -/
def envAmqpFail : CheckEnv :=
  { envAllOk with amqpConnectR := Except.error (PyErr.exn "connection refused") }

/-- Environment in which the hypervisor `connect()` raises. -/
def envVcsFail : CheckEnv :=
  { envAllOk with vcsConnectR := Except.error (PyErr.exn "connection refused") }

/-- Dispatcher environment in which every external call returns normally. -/
def cliEnvOk : CliEnv :=
  { pkgVersionR := Except.ok "0.1.2", stdoutR := Except.ok (),
    sampleEchoR := Except.ok (),
    installCseR := Except.ok (), uninstallCseR := Except.ok (),
    serviceRunR := Except.ok (), fileR := Except.ok sampleCfg,
    checkEnv := envAllOk }

/-- Dispatcher environment in which `uninstall_cse` raises. -/
def cliEnvUninstallBoom : CliEnv :=
  { cliEnvOk with uninstallCseR := Except.error (PyErr.exn "boom") }

/-- Dispatcher environment in which `install_cse` raises. -/
def cliEnvInstallBoom : CliEnv :=
  { cliEnvOk with installCseR := Except.error (PyErr.exn "boom") }

/-- Dispatcher environment in which `service.run()` raises. -/
def cliEnvRunBoom : CliEnv :=
  { cliEnvOk with serviceRunR := Except.error (PyErr.exn "queue unreachable") }

/-- Dispatcher environment in which the secho of the sample template raises. -/
def cliEnvSampleBoom : CliEnv :=
  { cliEnvOk with sampleEchoR := Except.error (PyErr.exn "broken pipe") }

/-- Accumulating decimal reader over characters: fails on a non-digit. -/
def natOfDigits : List Char → Nat → Option Nat
  | [], acc => some acc
  | c :: cs, acc =>
    if c.isDigit then natOfDigits cs (acc * 10 + (c.toNat - 48)) else none

/-- The natural number denoted by a string of decimal digits, as a YAML reader
would take an unquoted numeric scalar. -/
def natOfString (s : String) : Option Nat :=
  match s.toList with
  | [] => none
  | cs => natOfDigits cs 0

/-- A process environment in which CSE_CONFIG is set. -/
def environWithVar : String → Option String :=
  fun s => if s == "CSE_CONFIG" then some "from-env.yaml" else none

/-- A process environment in which CSE_CONFIG is unset. -/
def environEmpty : String → Option String :=
  fun _ => none

theorem runEvents_cons (s : ProcState) (e : Event) (tr : List Event) :
    runEvents s (e :: tr) = runEvents (applyEvent s e) tr := rfl

theorem runEvents_true (tr : List Event) :
    (runEvents ⟨true⟩ tr).warningsDisabled = true := by
  induction tr with
  | nil => rfl
  | cons e tr ih =>
    rw [runEvents_cons]
    cases e <;> simpa [applyEvent] using ih

/-- The process-wide warning state after any trace: set exactly when it was
set before or the trace performed a `disable_warnings` call; no event ever
clears it. -/
theorem runEvents_warnings (b : Bool) (tr : List Event) :
    (runEvents ⟨b⟩ tr).warningsDisabled = (b || mentionsDW tr) := by
  induction tr generalizing b with
  | nil => cases b <;> rfl
  | cons e tr ih =>
    rw [runEvents_cons]
    cases e <;> cases b <;>
      simp [applyEvent, mentionsDW, runEvents_true, ih]

/-- Characterization of one `check_config` run, shared by the claim theorems:
truncation of the trace against the all-success run, probe order, the attempt
condition of each probe, the close condition of the queue connection, the
printed status lines, the `disable_warnings` count, and the returned value. -/
theorem check_config_run_facts (config : Config) (env : CheckEnv) :
    IsInitSeg (check_config (Except.ok config) env).1
      (check_config (Except.ok config) (allOk env)).1
  ∧ probeSeq (check_config (Except.ok config) (allOk env)).1 =
      [ProbeId.amqp, ProbeId.vcd, ProbeId.vcs]
  ∧ IsInitSeg (probeSeq (check_config (Except.ok config) env).1)
      [ProbeId.amqp, ProbeId.vcd, ProbeId.vcs]
  ∧ (ProbeId.vcd ∈ probeSeq (check_config (Except.ok config) env).1 ↔
      (amqpStageOk env && warnStageOk config env) = true)
  ∧ (ProbeId.vcs ∈ probeSeq (check_config (Except.ok config) env).1 ↔
      (amqpStageOk env && vcdStageOk config env) = true)
  ∧ (Event.amqpClose ∈ (check_config (Except.ok config) env).1 ↔
      (okb env.amqpConnectR && okb env.amqpEchoR) = true)
  ∧ ((check_config (Except.ok config) env).2 = Except.ok config ∨
      ∃ e, (check_config (Except.ok config) env).2 = Except.error e)
  ∧ ((check_config (Except.ok config) env).2 = Except.ok config ↔
      (amqpStageOk env && vcdStageOk config env && vcsStageOk env) = true)
  ∧ ((okb env.amqpConnectR && okb env.amqpEchoR) = true →
      Event.echo (amqpLine config.amqp.host config.amqp.port env.amqpIsOpen) ∈
        (check_config (Except.ok config) env).1)
  ∧ ((amqpStageOk env && vcdStageOk config env) = true →
      Event.echo (vcdLine config.vcd.host config.vcd.port) ∈
        (check_config (Except.ok config) env).1)
  ∧ ((amqpStageOk env && vcdStageOk config env && vcsStageOk env) = true →
      Event.echo (vcsLine config.vcs.username config.vcs.host config.vcs.port) ∈
        (check_config (Except.ok config) env).1)
  ∧ disableWarningsCount (check_config (Except.ok config) env).1 =
      (if (amqpStageOk env && !config.vcd.verify && okb env.warnEchoR) = true
       then 1 else 0)
  ∧ Event.amqpConnect config.amqp.host config.amqp.port ∈
      (check_config (Except.ok config) env).1 := by
  obtain ⟨c1, o, e1, cl, w, vc, vl, ve, sc, se⟩ := env
  obtain ⟨⟨ah, ap, au, apw⟩, ⟨vh, vp, vu, vpw, vav, vver⟩, ⟨ch, cp, cu, cpw⟩⟩ := config
  rcases c1 with ec | u1 <;> rcases e1 with ee | u2 <;> rcases cl with ecl | u3 <;>
    rcases w with ew | u4 <;> rcases vc with evc | u5 <;> rcases vl with evl | u6 <;>
    rcases ve with eve | u7 <;> rcases sc with esc | u8 <;> rcases se with ese | u9 <;>
    cases vver <;>
    simp [check_config, amqpProbe, vcdProbe, vcdClientPart, vcsProbe, allOk,
          probeSeq, probeOf, IsInitSeg, amqpStageOk, warnStageOk, vcdStageOk,
          vcsStageOk, okb, disableWarningsCount]

/-- C1: for every configuration document, `check_config` performs its three
connectivity probes in the fixed order message queue (amqp), then management
API (vcd), then hypervisor (vcs), and any raise truncates the run: the trace
is an initial segment of the all-success trace, whose probe order is amqp,
vcd, vcs; the management-API probe is attempted exactly when the queue probe
raised nothing, and the hypervisor probe exactly when the two earlier probes
raised nothing — so after a raise no later probe is attempted and no further
status line is printed. -/
theorem check_config_probe_order (config : Config) (env : CheckEnv) :
    IsInitSeg (check_config (Except.ok config) env).1
      (check_config (Except.ok config) (allOk env)).1
  ∧ probeSeq (check_config (Except.ok config) (allOk env)).1 =
      [ProbeId.amqp, ProbeId.vcd, ProbeId.vcs]
  ∧ IsInitSeg (probeSeq (check_config (Except.ok config) env).1)
      [ProbeId.amqp, ProbeId.vcd, ProbeId.vcs]
  ∧ (ProbeId.vcd ∈ probeSeq (check_config (Except.ok config) env).1 ↔
      (amqpStageOk env && warnStageOk config env) = true)
  ∧ (ProbeId.vcs ∈ probeSeq (check_config (Except.ok config) env).1 ↔
      (amqpStageOk env && vcdStageOk config env) = true) := by
  obtain ⟨m1, m2, m3, m4, m5, -⟩ := check_config_run_facts config env
  exact ⟨m1, m2, m3, m4, m5⟩

/-- C10: the only value `check_config` can return is the parsed configuration
document itself, unmodified: every run either returns the loaded document or
raises; it returns it exactly when all probe stages raised nothing; and the
all-success run does return it. -/
theorem check_config_returns_document (config : Config) (env : CheckEnv) :
    ((check_config (Except.ok config) env).2 = Except.ok config ∨
      ∃ e, (check_config (Except.ok config) env).2 = Except.error e)
  ∧ ((check_config (Except.ok config) env).2 = Except.ok config ↔
      (amqpStageOk env && vcdStageOk config env && vcsStageOk env) = true)
  ∧ (check_config (Except.ok config) (allOk env)).2 = Except.ok config := by
  obtain ⟨-, -, -, -, -, -, m7, m8, -⟩ := check_config_run_facts config env
  obtain ⟨-, -, -, -, -, -, -, m8a, -⟩ := check_config_run_facts config (allOk env)
  refine ⟨m7, m8, m8a.mpr ?_⟩
  simp [amqpStageOk, vcdStageOk, vcsStageOk, warnStageOk, allOk, okb]

/-- C5 (amended): the queue connection is closed only on the path where its
status line was printed successfully — `connection.close()` is reached exactly
when the `pika.BlockingConnection` call and the `click.echo` of the status
line both returned normally; if the echo raises after the connection was
acquired, close is never called and the handle leaks. -/
theorem amqp_close_on_success_path (config : Config) (env : CheckEnv) :
    (Event.amqpClose ∈ (check_config (Except.ok config) env).1 ↔
      (okb env.amqpConnectR && okb env.amqpEchoR) = true)
  ∧ (okb env.amqpConnectR = true → okb env.amqpEchoR = false →
      Event.amqpClose ∉ (check_config (Except.ok config) env).1) := by
  obtain ⟨-, -, -, -, -, m6, -⟩ := check_config_run_facts config env
  refine ⟨m6, fun hc he hmem => ?_⟩
  have hb := m6.mp hmem
  rw [hc, he] at hb
  simp at hb

/-- C5 witness: on the sample document with a status echo that raises after
the connection opened, `connection.close()` is never called. -/
theorem amqp_close_on_success_path_witness :
    Event.amqpClose ∉ (check_config (Except.ok sampleCfg) envEchoFail).1 :=
  (amqp_close_on_success_path sampleCfg envEchoFail).2 rfl rfl

/-- C5 counterexample: a concrete run on the sample document in which the
connection is acquired (`BlockingConnection` returned normally) but printing
the status line raises: the probe exits with the exception, the trace contains
the connection attempt and no close — the handle is leaked, refuting
closed-on-every-exit-path. -/
theorem amqp_close_counterexample :
    envEchoFail.amqpConnectR = Except.ok ()
  ∧ (check_config (Except.ok sampleCfg) envEchoFail).1 =
      [Event.amqpConnect "amqp.vmware.com" 5672]
  ∧ Event.amqpClose ∉ (check_config (Except.ok sampleCfg) envEchoFail).1
  ∧ (check_config (Except.ok sampleCfg) envEchoFail).2 =
      Except.error (PyErr.exn "broken pipe") :=
  ⟨rfl, rfl, by decide, rfl⟩

/-- C2 (amended): each probe that completes its interaction prints its exact
template line with the host and port substituted and the word success (the
queue line reports `is_open`; the management-API and hypervisor lines carry a
literal success); a failing interaction raises instead and prints no status
line, so no fail line is printed for it. -/
theorem status_success_lines (config : Config) (env : CheckEnv) :
    ((okb env.amqpConnectR && okb env.amqpEchoR) = true → env.amqpIsOpen = true →
      Event.echo (amqpLine config.amqp.host config.amqp.port true) ∈
        (check_config (Except.ok config) env).1)
  ∧ ((amqpStageOk env && vcdStageOk config env) = true →
      Event.echo (vcdLine config.vcd.host config.vcd.port) ∈
        (check_config (Except.ok config) env).1)
  ∧ ((amqpStageOk env && vcdStageOk config env && vcsStageOk env) = true →
      Event.echo (vcsLine config.vcs.username config.vcs.host config.vcs.port) ∈
        (check_config (Except.ok config) env).1)
  ∧ amqpLine "amqp.vmware.com" 5672 true =
      "Connection to AMQP server (amqp.vmware.com:5672): success"
  ∧ vcdLine "vcd.vmware.com" 443 =
      "Connection to vCloud Director as system administrator (vcd.vmware.com:443): success"
  ∧ vcsLine "administrator@vsphere.local" "vcenter.vmware.com" 443 =
      "Connection to vCenter Server as administrator@vsphere.local (vcenter.vmware.com:443): success" := by
  obtain ⟨-, -, -, -, -, -, -, -, m9, m10, m11, -⟩ := check_config_run_facts config env
  exact ⟨fun h ho => ho ▸ m9 h, m10, m11, rfl, rfl, rfl⟩

/-- C2 witness: all three success lines occur on the all-success run over the
sample document. -/
theorem status_success_lines_witness :
    Event.echo (amqpLine "amqp.vmware.com" 5672 true) ∈
      (check_config (Except.ok sampleCfg) envAllOk).1
  ∧ Event.echo (vcdLine "vcd.vmware.com" 443) ∈
      (check_config (Except.ok sampleCfg) envAllOk).1
  ∧ Event.echo (vcsLine "administrator@vsphere.local" "vcenter.vmware.com" 443) ∈
      (check_config (Except.ok sampleCfg) envAllOk).1 :=
  ⟨(status_success_lines sampleCfg envAllOk).1 rfl rfl,
   (status_success_lines sampleCfg envAllOk).2.1 rfl,
   (status_success_lines sampleCfg envAllOk).2.2.1 rfl⟩

/-- C2 counterexample: a concrete run on the sample document in which the
hypervisor `connect()` raises — the failing interaction yields no printed line
containing the word fail: the exception propagates and no echoed line of the
whole run contains fail, refuting the claim's failing-interaction half. -/
theorem status_fail_line_counterexample :
    envVcsFail.vcsConnectR = Except.error (PyErr.exn "connection refused")
  ∧ (check_config (Except.ok sampleCfg) envVcsFail).2 =
      Except.error (PyErr.exn "connection refused")
  ∧ echoesContaining (check_config (Except.ok sampleCfg) envVcsFail).1 "fail" = [] :=
  ⟨rfl, rfl, by decide⟩

/-- C4 (amended): when `vcd.verify` is true the suppression path is never
triggered; when it is false, `disable_warnings` runs exactly once provided the
queue probe completed and the warning secho returned (zero times otherwise);
and the suppression is process-wide, not scoped: the warning state after the
run is set exactly when it was set before or the trace performed the call —
nothing restores it after `check_config` returns. -/
theorem warning_suppression (config : Config) (env : CheckEnv) (b : Bool) :
    (config.vcd.verify = true →
      disableWarningsCount (check_config (Except.ok config) env).1 = 0)
  ∧ disableWarningsCount (check_config (Except.ok config) env).1 =
      (if (amqpStageOk env && !config.vcd.verify && okb env.warnEchoR) = true
       then 1 else 0)
  ∧ (runEvents ⟨b⟩ (check_config (Except.ok config) env).1).warningsDisabled =
      (b || mentionsDW (check_config (Except.ok config) env).1) := by
  obtain ⟨-, -, -, -, -, -, -, -, -, -, -, m12, -⟩ := check_config_run_facts config env
  refine ⟨fun hv => ?_, m12, runEvents_warnings b _⟩
  rw [m12, hv]
  simp

/-- C4 witness: with verification enabled in the sample document, no
`disable_warnings` call occurs. -/
theorem warning_suppression_witness :
    disableWarningsCount (check_config (Except.ok cfgVerify) envAllOk).1 = 0 :=
  (warning_suppression cfgVerify envAllOk false).1 rfl

/-- C4 counterexample: on the sample document (verify false) with every call
succeeding, `disable_warnings` runs once and the process-wide warning state is
still disabled after `check_config` returns; the module-level call precedes
the construction of the management-API client in the trace, so it cannot be
scoped to that client; and when the queue probe raises first the suppression
runs zero times in that invocation, refuting exactly-once-per-invocation. -/
theorem warning_suppression_counterexample :
    disableWarningsCount (check_config (Except.ok sampleCfg) envAllOk).1 = 1
  ∧ (runEvents ⟨false⟩ (check_config (Except.ok sampleCfg) envAllOk).1).warningsDisabled = true
  ∧ (check_config (Except.ok sampleCfg) envAllOk).1.take 6 =
      [Event.amqpConnect "amqp.vmware.com" 5672,
       Event.echo (amqpLine "amqp.vmware.com" 5672 true),
       Event.amqpClose,
       Event.echoErr insecureWarning,
       Event.disableWarnings,
       Event.vcdClient "vcd.vmware.com"]
  ∧ disableWarningsCount (check_config (Except.ok sampleCfg) envAmqpFail).1 = 0 :=
  ⟨rfl, rfl, rfl, rfl⟩

/-- C9: for every config path, template and environment, the `check` handler
evaluates the call `check_config(config, template)` — two positional arguments
against the one-parameter definition — which raises TypeError before any probe
runs; the handler catches it, logs the traceback and prints the
invalid-configuration message, and the success line is unreachable. -/
theorem check_always_invalid (p t : String) (env : CliEnv) :
    checkCmd p t env =
      ([Event.logError (tracebackOf (PyErr.typeError
          "check_config() takes 1 positional argument but 2 were given")),
        Event.echo (checkInvalidLine (PyErr.typeError
          "check_config() takes 1 positional argument but 2 were given"))],
       Except.ok ())
  ∧ Event.echo "The configuration is valid." ∉ (checkCmd p t env).1 := by
  refine ⟨rfl, ?_⟩
  have h : Event.echo "The configuration is valid." ∉
      ([Event.logError (tracebackOf (PyErr.typeError
          "check_config() takes 1 positional argument but 2 were given")),
        Event.echo (checkInvalidLine (PyErr.typeError
          "check_config() takes 1 positional argument but 2 were given"))] :
        List Event) := by decide
  exact h

/-- C7: `generate_sample_config` is a fixed pure template echoed unchanged by
the sample handler, but its text is not valid YAML: the YAML reader rejects it
at the substituted logging_format line, whose unquoted value begins with the
indicator `%` (which cannot start any token) and contains a colon-space
(mapping values are not allowed inside a plain scalar) — so a `yaml.load` of
the saved sample, as `cse check` would perform, fails. With that single line
removed the text scans as a mapping with exactly the top-level keys amqp, vcd,
vcs, service, broker and the documented values amqp.port 5672, vcd.port 443,
service.listeners 2, confirming the claim is the intent and the unquoted
substituted scalar the slip. -/
theorem sample_config_not_yaml :
    sampleCmd cliEnvOk = ([Event.echo generate_sample_config], Except.ok ())
  ∧ generate_sample_config = String.intercalate "\n" sampleConfigLines
  ∧ yamlScan sampleConfigLines = Except.error loggingFormatLine
  ∧ plainScalarOk (dropSpaces ((dropSpaces loggingFormatLine.toList).drop
      ("logging_format:".length))) = false
  ∧ yamlIndicatorChars.contains '%' = true
  ∧ hasColonBreak (dropSpaces ((dropSpaces loggingFormatLine.toList).drop
      ("logging_format:".length))) = true
  ∧ (yamlScan sampleLinesWithoutLoggingFormat).map (List.map Prod.fst) =
      Except.ok ["amqp", "vcd", "vcs", "service", "broker"]
  ∧ ((yamlScan sampleLinesWithoutLoggingFormat).toOption.bind fun d =>
      (yamlValue d "amqp" "port").bind natOfString) = some 5672
  ∧ ((yamlScan sampleLinesWithoutLoggingFormat).toOption.bind fun d =>
      (yamlValue d "vcd" "port").bind natOfString) = some 443
  ∧ ((yamlScan sampleLinesWithoutLoggingFormat).toOption.bind fun d =>
      (yamlValue d "service" "listeners").bind natOfString) = some 2 :=
  ⟨rfl, rfl, rfl, by decide, by decide, by decide, rfl, by decide,
   by decide, by decide⟩

/-- C8: invoked without the `-y` flag the uninstall command prompts for
confirmation, and a declined confirmation aborts before any domain logic: the
trace is exactly the prompt, the outcome is the click abort exception, and no
`uninstall_cse` call occurs. -/
theorem uninstall_prompt_abort (env : CliEnv) (answer : Bool) :
    Event.prompt uninstallPromptText ∈ (uninstallInvoke false answer env).1
  ∧ uninstallInvoke false false env =
      ([Event.prompt uninstallPromptText], Except.error PyErr.abort)
  ∧ Event.callUninstallCse ∉ (uninstallInvoke false false env).1 := by
  have h : Event.callUninstallCse ∉ ([Event.prompt uninstallPromptText] : List Event) := by
    decide
  refine ⟨?_, rfl, h⟩
  cases answer <;> simp [uninstallInvoke]

/-- C3 (amended): only the `check` and `install` handlers contain exceptions —
each converts any body exception into a logged traceback plus a one-line
standard-output message pointing at cse.log and returns normally; the
`version`, `sample`, `uninstall` and `run` handlers have no containment, so a
raising body — including the sample handler's secho of the template —
propagates the exception out of the handler. -/
theorem handler_containment (env : CliEnv) :
    (∀ p t, (checkCmd p t env).2 = Except.ok ())
  ∧ ((installCmd env).2 = Except.ok ())
  ∧ (∀ e, env.installCseR = Except.error e →
      installCmd env = ([Event.callInstallCse, Event.logError (tracebackOf e),
        Event.echo (installErrLine e)], Except.ok ()))
  ∧ (∀ e, env.pkgVersionR = Except.error e → versionCmd env = ([], Except.error e))
  ∧ (∀ e, env.sampleEchoR = Except.error e → sampleCmd env = ([], Except.error e))
  ∧ (∀ e, env.uninstallCseR = Except.error e →
      uninstallCmd env = ([Event.callUninstallCse], Except.error e))
  ∧ (∀ e s, env.serviceRunR = Except.error e →
      runServiceCmd s env = ([Event.serviceRun], Except.error e)) := by
  refine ⟨fun p t => rfl, ?_,
    fun e h => by simp [installCmd, h],
    fun e h => by simp [versionCmd, h],
    fun e h => by simp [sampleCmd, h],
    fun e h => by simp [uninstallCmd, h],
    fun e s h => by simp [runServiceCmd, h]⟩
  rcases h : env.installCseR with e | u <;> simp [installCmd, h]

/-- C3 witness: a raising `install_cse` is contained into log-plus-message
with normal return, while the check handler also returns normally. -/
theorem handler_containment_witness :
    installCmd cliEnvInstallBoom =
      ([Event.callInstallCse, Event.logError (tracebackOf (PyErr.exn "boom")),
        Event.echo (installErrLine (PyErr.exn "boom"))], Except.ok ())
  ∧ (checkCmd "config.yaml" "photon-v1" cliEnvInstallBoom).2 = Except.ok () :=
  ⟨(handler_containment cliEnvInstallBoom).2.2.1 (PyErr.exn "boom") rfl,
   (handler_containment cliEnvInstallBoom).1 "config.yaml" "photon-v1"⟩

/-- C3 counterexample: the `uninstall`, `run` and `sample` handlers do not
contain exceptions — a raising `uninstall_cse`, `service.run` or sample secho
propagates out of the handler with nothing echoed and nothing logged,
refuting the claim that every handler converts exceptions into a user-facing
line plus log pointer. -/
theorem handler_containment_counterexample :
    uninstallCmd cliEnvUninstallBoom =
      ([Event.callUninstallCse], Except.error (PyErr.exn "boom"))
  ∧ runServiceCmd false cliEnvRunBoom =
      ([Event.serviceRun], Except.error (PyErr.exn "queue unreachable"))
  ∧ sampleCmd cliEnvSampleBoom = ([], Except.error (PyErr.exn "broken pipe")) :=
  ⟨rfl, rfl, rfl⟩

/-- C6: for each subcommand taking a config path, resolution follows the
precedence flag, then the CSE_CONFIG environment variable, then the default
config.yaml. -/
theorem config_path_precedence (cmd : CseCommand) (a : String)
    (environ : String → Option String) :
    resolveConfigPath (configPathOption cmd) (some a) environ = a
  ∧ (∀ b, environ "CSE_CONFIG" = some b →
      resolveConfigPath (configPathOption cmd) none environ = b)
  ∧ (environ "CSE_CONFIG" = none →
      resolveConfigPath (configPathOption cmd) none environ = "config.yaml") := by
  refine ⟨rfl, fun b hb => ?_, fun hn => ?_⟩ <;> cases cmd <;>
    simp [resolveConfigPath, configPathOption, *]

/-- C6 witness: the three precedence combinations at concrete inputs. -/
theorem config_path_precedence_witness :
    resolveConfigPath (configPathOption CseCommand.check) (some "from-flag.yaml")
      environWithVar = "from-flag.yaml"
  ∧ resolveConfigPath (configPathOption CseCommand.check) none environWithVar =
      "from-env.yaml"
  ∧ resolveConfigPath (configPathOption CseCommand.check) none environEmpty =
      "config.yaml" :=
  ⟨(config_path_precedence CseCommand.check "from-flag.yaml" environWithVar).1,
   (config_path_precedence CseCommand.check "x" environWithVar).2.1 "from-env.yaml" rfl,
   (config_path_precedence CseCommand.check "x" environEmpty).2.2 rfl⟩
